import Mathlib

/-!
Shallow embedding of the tenant-routing / execution-engine core of the
TalkDoc platform (`src/platform_core`), built to check the repository's
natural-language specification.

Conventions of the embedding:
* Python floats (`confidence`, thresholds, durations, costs) are modelled
  as rationals `ℚ`; the claims under check only compare these values.
* Python dicts whose contents the core never inspects (`input_data`,
  `output_data`, `error_details`, `context`, `metrics`) are modelled as
  association lists `List (String × String)` or as small structures with
  the keys the code actually reads.
* Run-time randomness and wall-clock data (`uuid4`, `datetime.utcnow`,
  `time.time`) are either omitted from the result model or passed in as
  explicit parameters; attempt durations are supplied with the operation
  behaviour so that elapsed time is observable.
* Exceptions are a closed inductive `Exc`; each constructor models a
  Python `Exception` subclass that the engine's `try/except` chain can
  receive (`TimeoutError`, tenacity's `RetryError`, and everything else).
-/

namespace TalkDoc

/-- Model of `TenantStatus` (src/platform_core/tenant_management/models.py). -/
inductive TenantStatus where
  | provisioning
  | active
  | suspended
  | deactivated
  | migrating
deriving DecidableEq, Repr

/-- Model of the tenant feature map `config.features.enabled_agents`:
an association list from agent-type name to enabled flag. -/
structure TenantFeatures where
  enabled_agents : List (String × Bool)
deriving DecidableEq, Repr

/-- Model of `Tenant` (src/platform_core/tenant_management/models.py),
restricted to the fields the routing / execution core reads. -/
structure Tenant where
  tenant_id : String
  database_name : String
  status : TenantStatus
  status_reason : Option String
  features : TenantFeatures
deriving DecidableEq, Repr

/-- Model of `TenantContext` (src/platform_core/shared_services/tenant_context.py):
a tenant snapshot plus a handle to its isolated store.  The live database
handle is identified by `database_name` inside the tenant record. -/
structure TenantContext where
  tenant : Tenant
deriving DecidableEq, Repr

/-- Property `TenantContext.tenant_id`. -/
def TenantContext.tenant_id (c : TenantContext) : String :=
  c.tenant.tenant_id

/-- Method `TenantContext.is_agent_enabled`: pure lookup in the feature map,
`dict.get(agent_type, False)` — unknown names default to disabled. -/
def TenantContext.is_agent_enabled (c : TenantContext) (agent_type : String) : Bool :=
  ((c.tenant.features.enabled_agents.lookup agent_type).getD false)

/-- Model of `AgentStatus` (src/platform_core/agent_orchestration/base_agent.py). -/
inductive AgentStatus where
  | pending
  | running
  | success
  | failed
  | retrying
  | timeout
  | cancelled
deriving DecidableEq, Repr

/-- Closed model of the Python exceptions reaching the engine's handler
chain: `TimeoutError`, tenacity's `RetryError`, and any other
`Exception` subclass (carrying its `str(e)` message). -/
inductive Exc where
  | timeoutError
  | retryError (msg : String)
  | otherError (msg : String)
deriving DecidableEq, Repr

/-- Python `str(e)` for a modelled exception. -/
def Exc.msg : Exc → String
  | .timeoutError => ""
  | .retryError m => m
  | .otherError m => m

/-- Python `isinstance(e, RetryError)` for the first `except` clause. -/
def Exc.isRetryError : Exc → Bool
  | .retryError _ => true
  | _ => false

/-- Python `isinstance(e, TimeoutError)` for the second `except` clause. -/
def Exc.isTimeoutError : Exc → Bool
  | .timeoutError => true
  | _ => false

/-- Python `isinstance(e, Exception)` for the final `except Exception` clause:
every modelled exception is an `Exception` subclass. -/
def Exc.isException : Exc → Bool
  | _ => true

/-- The metrics dict returned by an operation, read via
`metrics.get("api_calls_made", 0)` etc. in `BaseAgent.execute`. -/
structure Metrics where
  api_calls_made : Nat
  tokens_used : Nat
  cost_usd : ℚ
deriving DecidableEq, Repr

/-- Outcome of one invocation of `_execute_internal`: either a
`(output, confidence, metrics)` triple or a raised exception. -/
inductive AttemptOutcome (O : Type) where
  | ok (output : O) (confidence : ℚ) (metrics : Metrics)
  | err (e : Exc)
deriving DecidableEq, Repr

/-- One attempt of the wrapped operation: its wall-clock duration in
seconds (observable data, never consulted by the engine's control flow)
and its outcome. -/
structure Attempt (O : Type) where
  durationSeconds : ℚ
  outcome : AttemptOutcome O
deriving DecidableEq, Repr

/-- An operation behaviour: what `_execute_internal` does on the n-th
attempt (0-indexed). -/
def OpBehaviour (O : Type) : Type := Nat → Attempt O

/-- Model of tenacity `@retry(stop=stop_after_attempt(n), reraise=True)`
applied to the operation, as configured in `BaseAgent._execute_with_retry`
with `n = max_retries + 1`: attempts run in order; the first success is
returned; because `reraise=True`, exhausting the stop condition re-raises
the *last attempt's own exception* (a `RetryError` is never raised).
`i` is the index of the next attempt, `fuel` the number of attempts the
stop condition still allows (the engine always starts with `fuel ≥ 1`;
`fuel = 0` would mean tenacity stopped before any attempt, which
`stop_after_attempt (max_retries + 1)` never does). -/
def tenacityRun {O : Type} (op : OpBehaviour O) : Nat → Nat → Except Exc (O × ℚ × Metrics)
  | _, 0 => .error (.retryError "stop_after_attempt(0): no attempt allowed")
  | i, fuel + 1 =>
    match (op i).outcome with
    | .ok o c m => .ok (o, c, m)
    | .err e =>
      match fuel with
      | 0 => .error e
      | fuel' + 1 => tenacityRun op (i + 1) (fuel' + 1)

/-- Number of attempts actually executed by `tenacityRun op 0 fuel`
(used only to account elapsed time). -/
def attemptsMade {O : Type} (op : OpBehaviour O) : Nat → Nat → Nat
  | _, 0 => 0
  | i, fuel + 1 =>
    match (op i).outcome with
    | .ok _ _ _ => 1
    | .err _ =>
      match fuel with
      | 0 => 1
      | fuel' + 1 => 1 + attemptsMade op (i + 1) (fuel' + 1)

/-- Model of one backoff delay of
`wait_exponential(multiplier=1, min=2, max=10)` before the (j+2)-th
attempt: an exponentially growing wait clamped to [2, 10] seconds. -/
def waitExp (j : Nat) : ℚ :=
  min 10 (max 2 ((2 : ℚ) ^ j))

/-- Total backoff time for `k` executed attempts (`k - 1` waits). -/
def backoffTotal (k : Nat) : ℚ :=
  ((List.range (k - 1)).map waitExp).sum

/-- Elapsed wall-clock seconds of the retry loop: the durations of the
attempts actually executed plus the backoff waits between them.  The
engine never reads this quantity; it is the observable against which the
spec's timeout bound is checked. -/
def elapsedSeconds {O : Type} (op : OpBehaviour O) (fuel : Nat) : ℚ :=
  (((List.range (attemptsMade op 0 fuel)).map (fun i => (op i).durationSeconds)).sum)
    + backoffTotal (attemptsMade op 0 fuel)

/-- Per-agent configuration fixed in `BaseAgent.__init__`. -/
structure AgentCfg where
  agent_type : String
  agent_version : String
  max_retries : Nat
  timeout_seconds : Nat
deriving DecidableEq, Repr

/-- The slice of the global `PlatformConfig` the engine reads. -/
structure PlatformCfg where
  agent_confidence_threshold : ℚ
  enable_audit_logging : Bool
deriving DecidableEq, Repr

/-- Model of `AgentResult` (src/platform_core/agent_orchestration/base_agent.py),
minus the run-time-generated `execution_id` / timestamps and the
pass-through `context` dict. -/
structure AgentResult (O : Type) where
  agent_type : String
  agent_version : String
  status : AgentStatus
  output : Option O
  confidence : ℚ
  error : Option String
  error_details : Option (List (String × String))
  execution_time_ms : ℚ
  retry_count : Nat
  api_calls_made : Nat
  tokens_used : Nat
  cost_usd : ℚ
  user_id : Option String
  tenant_id : Option String
  needs_human_review : Bool
  review_reason : Option String
deriving DecidableEq, Repr

/-- Model of Python's `f"{q:.2f}"` on a rational: round to two decimal
places (ties upward) and print with exactly two fractional digits. -/
def fmt2 (q : ℚ) : String :=
  let n : Int := (q * 100 + 1 / 2).floor
  let sign := if n < 0 then "-" else ""
  let a := n.natAbs
  sign ++ toString (a / 100) ++ "." ++
    (if a % 100 < 10 then "0" else "") ++ toString (a % 100)

/-- The review-reason string built in the success branch of
`BaseAgent.execute`:
`f"Low confidence score: {confidence:.2f} < {threshold}"`. -/
def lowConfidenceReason (confidence threshold : ℚ) : String :=
  "Low confidence score: " ++ fmt2 confidence ++ " < " ++ fmt2 threshold

/-- The `try:` body of `BaseAgent.execute` up to and including the call of
`_execute_with_retry`: first the feature gate
(`if tenant_context and not tenant_context.is_agent_enabled(...): raise
ValueError(...)`), then the retry loop over
`stop_after_attempt(max_retries + 1)`. -/
def executeBody {O : Type} (A : AgentCfg) (tctx : Option TenantContext)
    (op : OpBehaviour O) : Except Exc (O × ℚ × Metrics) :=
  match tctx with
  | some c =>
    if c.is_agent_enabled A.agent_type then
      tenacityRun op 0 (A.max_retries + 1)
    else
      .error (.otherError ("Agent " ++ A.agent_type ++ " is not enabled for this tenant"))
  | none => tenacityRun op 0 (A.max_retries + 1)

/-- The `AgentResult` built in the success branch of `BaseAgent.execute`.
`retry_count` is not passed there, so it takes the field default `0`. -/
def successResult {O : Type} (A : AgentCfg) (cfg : PlatformCfg)
    (user_id tenant_id : Option String) (elapsedMs : ℚ)
    (o : O) (c : ℚ) (m : Metrics) : AgentResult O :=
  let needsReview := c < cfg.agent_confidence_threshold
  { agent_type := A.agent_type
    agent_version := A.agent_version
    status := .success
    output := some o
    confidence := c
    error := none
    error_details := none
    execution_time_ms := elapsedMs
    retry_count := 0
    api_calls_made := m.api_calls_made
    tokens_used := m.tokens_used
    cost_usd := m.cost_usd
    user_id := user_id
    tenant_id := tenant_id
    needs_human_review := needsReview
    review_reason :=
      if needsReview then some (lowConfidenceReason c cfg.agent_confidence_threshold)
      else none }

/-- The `AgentResult` built in the `except RetryError` branch of
`BaseAgent.execute` (the only branch that sets `retry_count`). -/
def retryErrorResult {O : Type} (A : AgentCfg)
    (user_id tenant_id : Option String) (elapsedMs : ℚ) (e : Exc) : AgentResult O :=
  { agent_type := A.agent_type
    agent_version := A.agent_version
    status := .failed
    output := none
    confidence := 0
    error := some ("Agent failed after " ++ toString A.max_retries ++ " retries: " ++ e.msg)
    error_details := some [("retry_count", toString A.max_retries), ("original_error", e.msg)]
    execution_time_ms := elapsedMs
    retry_count := A.max_retries
    api_calls_made := 0
    tokens_used := 0
    cost_usd := 0
    user_id := user_id
    tenant_id := tenant_id
    needs_human_review := true
    review_reason := some "Agent execution failed after retries" }

/-- The `AgentResult` built in the `except TimeoutError` branch of
`BaseAgent.execute` (`retry_count` keeps its default `0`). -/
def timeoutResult {O : Type} (A : AgentCfg)
    (user_id tenant_id : Option String) (elapsedMs : ℚ) : AgentResult O :=
  { agent_type := A.agent_type
    agent_version := A.agent_version
    status := .timeout
    output := none
    confidence := 0
    error := some ("Agent execution exceeded timeout of " ++ toString A.timeout_seconds ++ "s")
    error_details := none
    execution_time_ms := elapsedMs
    retry_count := 0
    api_calls_made := 0
    tokens_used := 0
    cost_usd := 0
    user_id := user_id
    tenant_id := tenant_id
    needs_human_review := true
    review_reason := some "Agent execution timeout" }

/-- The `AgentResult` built in the final `except Exception` branch of
`BaseAgent.execute` (`retry_count` keeps its default `0`). -/
def genericErrorResult {O : Type} (A : AgentCfg)
    (user_id tenant_id : Option String) (elapsedMs : ℚ) (e : Exc) : AgentResult O :=
  { agent_type := A.agent_type
    agent_version := A.agent_version
    status := .failed
    output := none
    confidence := 0
    error := some e.msg
    error_details := some [("traceback", e.msg)]
    execution_time_ms := elapsedMs
    retry_count := 0
    api_calls_made := 0
    tokens_used := 0
    cost_usd := 0
    user_id := user_id
    tenant_id := tenant_id
    needs_human_review := true
    review_reason := some ("Agent execution error: " ++ e.msg) }

/-- Model of `BaseAgent.execute` as the exception-transparent function it is in
the source: the `try` body either returns a success triple or raises; the
`except` chain (`RetryError`, then `TimeoutError`, then `Exception`)
turns the raised exception into a result.  An exception none of the
clauses matches would propagate past the engine (`Except.error`). -/
def executeE {O : Type} (A : AgentCfg) (cfg : PlatformCfg)
    (tctx : Option TenantContext) (op : OpBehaviour O)
    (user_id : Option String) : Except Exc (AgentResult O) :=
  let tenant_id := tctx.map TenantContext.tenant_id
  let elapsedMs := elapsedSeconds op (A.max_retries + 1) * 1000
  match executeBody A tctx op with
  | .ok (o, c, m) => .ok (successResult A cfg user_id tenant_id elapsedMs o c m)
  | .error e =>
    if e.isRetryError then .ok (retryErrorResult A user_id tenant_id elapsedMs e)
    else if e.isTimeoutError then .ok (timeoutResult A user_id tenant_id elapsedMs)
    else if e.isException then .ok (genericErrorResult A user_id tenant_id elapsedMs e)
    else .error e

/-- The result returned by `BaseAgent.execute`.  Total because the final
`except Exception` clause matches every modelled exception (proved as
part of claim C3, not assumed: the `Exc.isException e = false` branch of
`executeE` is unreachable, and this projection agrees with `executeE` on
every input). -/
def execute {O : Type} (A : AgentCfg) (cfg : PlatformCfg)
    (tctx : Option TenantContext) (op : OpBehaviour O)
    (user_id : Option String) : AgentResult O :=
  let tenant_id := tctx.map TenantContext.tenant_id
  let elapsedMs := elapsedSeconds op (A.max_retries + 1) * 1000
  match executeBody A tctx op with
  | .ok (o, c, m) => successResult A cfg user_id tenant_id elapsedMs o c m
  | .error e =>
    if e.isRetryError then retryErrorResult A user_id tenant_id elapsedMs e
    else if e.isTimeoutError then timeoutResult A user_id tenant_id elapsedMs
    else genericErrorResult A user_id tenant_id elapsedMs e

/-- Model of `AgentAuditLog` (src/platform_core/agent_orchestration/audit.py).
Timestamps are modelled as natural-number instants; dict fields as
association lists. -/
structure AgentAuditLog where
  log_id : String
  tenant_id : String
  agent_type : String
  agent_version : String
  status : String
  input_data : List (String × String)
  output_data : List (String × String)
  confidence : ℚ
  execution_time_ms : ℚ
  error : Option String
  error_details : List (String × String)
  retry_count : Nat
  api_calls_made : Nat
  tokens_used : Nat
  cost_usd : ℚ
  needs_human_review : Bool
  review_reason : Option String
  reviewed_by : Option String
  reviewed_at : Option Nat
  review_notes : Option String
  user_id : Option String
  executed_at : Nat
  context : List (String × String)
  phi_accessed : Bool
  phi_modified : Bool
  compliance_tags : List String
deriving DecidableEq, Repr

/-- String `.value` of an `AgentStatus` enum member. -/
def AgentStatus.value : AgentStatus → String
  | .pending => "pending"
  | .running => "running"
  | .success => "success"
  | .failed => "failed"
  | .retrying => "retrying"
  | .timeout => "timeout"
  | .cancelled => "cancelled"

/-- Run-time metadata of one `BaseAgent.execute` call that the source
generates from the clock / `uuid4` and pass-through arguments: supplied
here as explicit data. -/
structure RunMeta where
  execution_id : String
  input_data : List (String × String)
  context : List (String × String)
  started_at : Nat
deriving DecidableEq, Repr

/-- The audit entry assembled by `BaseAgent._log_to_audit` from a
finished result.  `dumpOutput` stands for `output.model_dump()`. -/
def mkAuditLog {O : Type} (A : AgentCfg) (meta : RunMeta)
    (dumpOutput : O → List (String × String)) (r : AgentResult O) : AgentAuditLog :=
  { log_id := meta.execution_id
    tenant_id := r.tenant_id.getD ""
    agent_type := A.agent_type
    agent_version := A.agent_version
    status := r.status.value
    input_data := meta.input_data
    output_data := (r.output.map dumpOutput).getD []
    confidence := r.confidence
    execution_time_ms := r.execution_time_ms
    error := r.error
    error_details := r.error_details.getD []
    retry_count := r.retry_count
    api_calls_made := r.api_calls_made
    tokens_used := r.tokens_used
    cost_usd := r.cost_usd
    needs_human_review := r.needs_human_review
    review_reason := r.review_reason
    reviewed_by := none
    reviewed_at := none
    review_notes := none
    user_id := r.user_id
    executed_at := meta.started_at
    context := meta.context
    phi_accessed := false
    phi_modified := false
    compliance_tags := [] }

/-- The side effects of one `BaseAgent.execute` call that are observable
outside the result: the audit entries written and whether the tenant
usage counter was incremented. -/
structure ExecEffects where
  auditWrites : List AgentAuditLog
  usageIncremented : Bool
deriving DecidableEq, Repr

/-- The fallible audit write of `_log_to_audit` /
`AgentAuditService.create_log`: the insert either succeeds or raises
(the database failure mode is supplied as the flag `auditFails`). -/
def auditWriteAttempt (auditFails : Bool) (log : AgentAuditLog) :
    Except Exc (List AgentAuditLog) :=
  if auditFails then .error (.otherError "audit write failed") else .ok [log]

/-- The fallible `TenantDBService.increment_agent_actions` call. -/
def incrementAttempt (incrFails : Bool) : Except Exc Bool :=
  if incrFails then .error (.otherError "increment failed") else .ok true

/-- The tail of `BaseAgent.execute` after the result is built: the
audit write, attempted only when `enable_audit_logging` is on and a
tenant context is present, inside its own `try/except` that swallows the
failure; then the usage-counter increment, attempted only when a tenant
context is present, likewise swallowed on failure. -/
def executeTail {O : Type} (A : AgentCfg) (cfg : PlatformCfg)
    (tctx : Option TenantContext) (meta : RunMeta)
    (dumpOutput : O → List (String × String)) (r : AgentResult O)
    (auditFails incrFails : Bool) : ExecEffects :=
  let writes :=
    if cfg.enable_audit_logging ∧ tctx.isSome then
      match auditWriteAttempt auditFails (mkAuditLog A meta dumpOutput r) with
      | .ok l => l
      | .error _ => []
    else []
  let incremented :=
    if tctx.isSome then
      match incrementAttempt incrFails with
      | .ok b => b
      | .error _ => false
    else false
  { auditWrites := writes, usageIncremented := incremented }

/-- Model of `BaseAgent.execute` with its observable side effects. -/
def executeFull {O : Type} (A : AgentCfg) (cfg : PlatformCfg)
    (tctx : Option TenantContext) (op : OpBehaviour O)
    (user_id : Option String) (meta : RunMeta)
    (dumpOutput : O → List (String × String))
    (auditFails incrFails : Bool) : AgentResult O × ExecEffects :=
  let r := execute A cfg tctx op user_id
  (r, executeTail A cfg tctx meta dumpOutput r auditFails incrFails)

/-- Model of `BaseAgent.execute` with side effects, exception-transparent: the
only place an exception could still escape is the main handler chain
(`executeE`); the audit and increment sections swallow their own
failures inside `try/except` as in the source. -/
def executeFullE {O : Type} (A : AgentCfg) (cfg : PlatformCfg)
    (tctx : Option TenantContext) (op : OpBehaviour O)
    (user_id : Option String) (meta : RunMeta)
    (dumpOutput : O → List (String × String))
    (auditFails incrFails : Bool) : Except Exc (AgentResult O × ExecEffects) :=
  match executeE A cfg tctx op user_id with
  | .error e => .error e
  | .ok r => .ok (r, executeTail A cfg tctx meta dumpOutput r auditFails incrFails)

/-- The `$set` document of `AgentAuditService.mark_reviewed`: sets
`reviewed_by`, `reviewed_at`, `review_notes` and forces
`needs_human_review` to `False`. -/
def applyReviewSet (d : AgentAuditLog) (reviewer : String)
    (notes : Option String) (now : Nat) : AgentAuditLog :=
  { d with
    reviewed_by := some reviewer
    reviewed_at := some now
    review_notes := notes
    needs_human_review := false }

/-- Model of `AgentAuditService.mark_reviewed`: `update_one({"log_id": log_id},
{"$set": ...})` on the collection (modelled as the ordered list of
documents): the first document whose `log_id` matches receives the
`$set`; the returned boolean is `modified_count > 0`, i.e. whether the
matched document actually changed. -/
def markReviewed (store : List AgentAuditLog) (log_id reviewer : String)
    (notes : Option String) (now : Nat) : List AgentAuditLog × Bool :=
  match store with
  | [] => ([], false)
  | d :: rest =>
    if d.log_id = log_id then
      let d2 := applyReviewSet d reviewer notes now
      (d2 :: rest, d2 ≠ d)
    else
      let (rest2, b) := markReviewed rest log_id reviewer notes now
      (d :: rest2, b)

/-- The two request headers and the path that
`TenantRoutingMiddleware.dispatch` / `_identify_tenant` read.  A header
value of `none` models an absent header. -/
structure Request where
  path : String
  xTenantID : Option String
  host : Option String
deriving DecidableEq, Repr

/-- The Tenant Directory read API the middleware consumes
(`TenantDBService.get_tenant_by_id` / `_by_subdomain` / `_by_domain`).
The middleware's Redis cache layer (`_get_tenant_cached`) is modelled in
its default configuration `redis_client = None`, where every lookup goes
straight to these functions. -/
structure TenantDirectory where
  byId : String → Option Tenant
  bySubdomain : String → Option Tenant
  byDomain : String → Option Tenant

/-- Python `host.split(":")[0]`: the part of the host before the first colon. -/
def stripPort (h : String) : String :=
  String.mk (h.toList.takeWhile (fun c => c ≠ ':'))

/-- A character of the regex class `[a-z0-9-]` under `re.IGNORECASE`
(ASCII letters of either case, digits, hyphen). -/
def isSubChar (c : Char) : Bool :=
  c.isAlpha || c.isDigit || c = '-'

/-- Python `host.replace(".", "").isdigit()`: after removing dots, the host is
nonempty and all digits (a bare numeric IP). -/
def isNumericHost (host : String) : Bool :=
  let ds := host.toList.filter (fun c => c ≠ '.')
  (!ds.isEmpty) && ds.all Char.isDigit

/-- Model of `TenantRoutingMiddleware._extract_subdomain`: skip `localhost`,
`127.0.0.1` and bare numeric IPs; match `^([a-z0-9-]+)\..*$`
(IGNORECASE) — the maximal leading run of class characters followed by a
literal dot; discard the reserved labels `www`, `api`, `admin`. -/
def extractSubdomain (host : String) : Option String :=
  if host = "localhost" ∨ host = "127.0.0.1" ∨ isNumericHost host then none
  else
    let label := host.toList.takeWhile isSubChar
    if label ≠ [] ∧ (host.toList.drop label.length).head? = some '.' then
      let s := String.mk label
      if s = "www" ∨ s = "api" ∨ s = "admin" then none else some s
    else none

/-- Strategy (1) of `TenantRoutingMiddleware._identify_tenant`: the
`X-Tenant-ID` header when present and non-empty (Python truthiness),
looked up by id. -/
def headerLookup (dir : TenantDirectory) (req : Request) : Option Tenant :=
  match req.xTenantID with
  | some s => if s ≠ "" then dir.byId s else none
  | none => none

/-- Model of `TenantRoutingMiddleware._identify_tenant`: the header strategy
first, then (2) the subdomain of the port-stripped host, looked up by
subdomain; (3) the full port-stripped host, looked up by domain; `none`
when all miss.  An empty host returns `none` immediately. -/
def identifyTenant (dir : TenantDirectory) (req : Request) : Option Tenant :=
  match headerLookup dir req with
  | some t => some t
  | none =>
    let host := stripPort (req.host.getD "")
    if host = "" then none
    else
      match extractSubdomain host with
      | some sub =>
        match dir.bySubdomain sub with
        | some t => some t
        | none => dir.byDomain host
      | none => dir.byDomain host

/-- Python's `x or default` on an optional string: the stored value when
present and non-empty, else the default. -/
def pyOr (s : Option String) (default : String) : String :=
  match s with
  | some v => if v ≠ "" then v else default
  | none => default

/-- What the route handler (`call_next`) does when invoked: return a
response, raise an `HTTPException`, or raise any other exception. -/
inductive HandlerOutcome (Resp : Type) where
  | ok (r : Resp)
  | raiseHTTP (code : Nat) (detail : String)
  | raiseOther (msg : String)
deriving DecidableEq, Repr

/-- An error escaping `dispatch`: an `HTTPException (code, detail)`, or
an arbitrary exception (possible only on the platform-endpoint path,
which runs outside the middleware's `try`). -/
inductive MwError where
  | http (code : Nat) (detail : String)
  | other (msg : String)
deriving DecidableEq, Repr

/-- Everything observable about one `dispatch` call: the response or
escaping error, the state of the tenant-context propagation slot after
the call, whether the downstream handler ran, and the audit entries the
handler produced while running. -/
structure DispatchResult (Resp : Type) where
  response : Except MwError Resp
  slotAfter : Option TenantContext
  handlerRan : Bool
  auditWrites : List AgentAuditLog

/-- Structural prefix test on character lists (Python `str.startswith`). -/
def listStartsWith : List Char → List Char → Bool
  | [], _ => true
  | _ :: _, [] => false
  | a :: as, b :: bs => a = b && listStartsWith as bs

/-- Model of `TenantRoutingMiddleware._is_platform_endpoint`:
`any(path.startswith(prefix) for prefix in platform_prefixes)`. -/
def isPlatformEndpoint (path : String) : Bool :=
  ["/health", "/ping", "/platform/", "/admin/tenants", "/docs", "/redoc",
    "/openapi.json"].any (fun p => listStartsWith p.toList path.toList)

/-- Model of `TenantRoutingMiddleware.dispatch`.  The propagation slot
(`_tenant_context` ContextVar) enters as `slot0`.  Platform endpoints
return before the `try`, leaving the slot untouched.  Otherwise the
`try` body identifies the tenant (404 on miss), gates on status
(503 with the stored reason on non-`active`), installs the context in
the slot and calls the handler; `except HTTPException: raise` re-raises
HTTP rejections, `except Exception` converts anything else to a 500, and
`finally: clear_tenant_context()` empties the slot on every path through
the `try`.  The handler is supplied with its outcome and the audit
entries it writes while running (none if it never runs). -/
def dispatch {Resp : Type} (dir : TenantDirectory) (req : Request)
    (handler : Option TenantContext → HandlerOutcome Resp × List AgentAuditLog)
    (slot0 : Option TenantContext) : DispatchResult Resp :=
  if isPlatformEndpoint req.path then
    -- early return: no tenant resolution, no try/finally, slot untouched;
    -- the handler runs seeing whatever context is in the slot
    let (h, w) := handler slot0
    { response :=
        match h with
        | .ok r => .ok r
        | .raiseHTTP code detail => .error (.http code detail)
        | .raiseOther m => .error (.other m)
      slotAfter := slot0
      handlerRan := true
      auditWrites := w }
  else
    match identifyTenant dir req with
    | none =>
      { response := .error (.http 404 "Tenant not found. Please check your URL.")
        slotAfter := none
        handlerRan := false
        auditWrites := [] }
    | some t =>
      if t.status ≠ TenantStatus.active then
        { response := .error (.http 503
            ("Service temporarily unavailable: " ++ pyOr t.status_reason "Tenant is not active"))
          slotAfter := none
          handlerRan := false
          auditWrites := [] }
      else
        let ctx : TenantContext := { tenant := t }
        let (h, w) := handler (some ctx)
        { response :=
            match h with
            | .ok r => .ok r
            | .raiseHTTP code detail => .error (.http code detail)
            | .raiseOther _ => .error (.http 500 "Error processing request")
          slotAfter := none
          handlerRan := true
          auditWrites := w }

/-! ## Concrete fixtures used by the theorems -/

/-- An agent configured with `max_retries = 3` (hence
`stop_after_attempt(4)`) and `timeout_seconds = 300`, the config
defaults of `PlatformConfig`. -/
def A0 : AgentCfg := ⟨"insurance_verification", "1.0.0", 3, 300⟩

/-- The platform config slice with the default confidence threshold
`0.85` and audit logging enabled. -/
def cfg0 : PlatformCfg := ⟨85 / 100, true⟩

/-- An operation that raises a `ValueError` on its first attempt and
succeeds with confidence `0.9` on the second. -/
def failThenOk : OpBehaviour Nat := fun i =>
  if i = 0 then ⟨1, .err (.otherError "boom")⟩
  else ⟨1, .ok 42 (9 / 10) ⟨0, 0, 0⟩⟩

/-- An operation that raises a `ValueError` on every attempt. -/
def alwaysFail : OpBehaviour Nat := fun _ => ⟨1, .err (.otherError "boom")⟩

/-- An operation whose single (successful) attempt takes 301 seconds —
one second longer than `A0`'s configured 300-second timeout. -/
def slowOk : OpBehaviour Nat := fun _ => ⟨301, .ok 7 (9 / 10) ⟨0, 0, 0⟩⟩

/-! ## Engine theorems -/

/-- C1 (code bug).  Retry accounting does not reach the result: an
operation that fails once and then succeeds (under `max_retries = 3`,
i.e. 4 attempts) yields `status = success` but `retry_count = 0`, not
`1` — the success branch never sets the field.  An operation that fails
on every attempt yields `status = failed` but `retry_count = 0`, not the
maximum — with `reraise=True` tenacity re-raises the operation's own
exception, so the `except RetryError` branch that would set
`retry_count = max_retries` is unreachable and the generic
`except Exception` branch (which leaves the default `0`) builds the
result. -/
theorem C1_retry_count_never_recorded :
    (execute A0 cfg0 none failThenOk none).status = .success ∧
    (execute A0 cfg0 none failThenOk none).retry_count = 0 ∧
    (execute A0 cfg0 none alwaysFail none).status = .failed ∧
    (execute A0 cfg0 none alwaysFail none).retry_count = 0 ∧
    A0.max_retries = 3 := by
  decide

/-- C2 (code bug).  The engine never enforces the configured timeout:
`timeout_seconds` is only ever read to format an error message, and no
code races the retry loop against a timer.  A single successful attempt
lasting 301 seconds, against a configured bound of 300 seconds, still
yields `status = success` — not `timeout`. -/
theorem C2_timeout_not_enforced :
    A0.timeout_seconds = 300 ∧
    elapsedSeconds slowOk (A0.max_retries + 1) = 301 ∧
    (A0.timeout_seconds : ℚ) < elapsedSeconds slowOk (A0.max_retries + 1) ∧
    (execute A0 cfg0 none slowOk none).status = .success ∧
    (execute A0 cfg0 none slowOk none).status ≠ .timeout := by
  have hmade : attemptsMade slowOk 0 (A0.max_retries + 1) = 1 := rfl
  have helapsed : elapsedSeconds slowOk (A0.max_retries + 1) = 301 := by
    rw [elapsedSeconds, hmade]
    simp [backoffTotal, slowOk]
  refine ⟨rfl, helapsed, ?_, rfl, by decide⟩
  rw [helapsed]
  show (300 : ℚ) < 301
  norm_num

/-- Shared boundary lemma: the `except` chain of `BaseAgent.execute`
handles every exception the body can raise, so the exception-transparent
model always returns the structured result — nothing propagates. -/
theorem executeE_ok {O : Type} (A : AgentCfg) (cfg : PlatformCfg)
    (tctx : Option TenantContext) (op : OpBehaviour O) (uid : Option String) :
    executeE A cfg tctx op uid = .ok (execute A cfg tctx op uid) := by
  unfold executeE execute
  cases hb : executeBody A tctx op with
  | ok v => rfl
  | error e => cases e <;> rfl

/-- C3: every behaviour of the wrapped operation produces a structured
`AgentResult` and no exception crosses the engine boundary
(`executeE` always returns `Except.ok` of the result); an unexpected
fault — any exception other than a `RetryError` or `TimeoutError`
reaching the boundary — yields `status = failed` with
`needs_human_review = true`. -/
theorem C3_engine_boundary {O : Type} (A : AgentCfg) (cfg : PlatformCfg)
    (tctx : Option TenantContext) (op : OpBehaviour O) (uid : Option String) :
    executeE A cfg tctx op uid = .ok (execute A cfg tctx op uid) ∧
    (∀ m, executeBody A tctx op = .error (.otherError m) →
      (execute A cfg tctx op uid).status = .failed ∧
      (execute A cfg tctx op uid).needs_human_review = true) := by
  refine ⟨executeE_ok A cfg tctx op uid, ?_⟩
  intro m hm
  unfold execute
  rw [hm]
  exact ⟨rfl, rfl⟩

/-- Witness for C3: with no tenant context and an operation that raises
`ValueError("boom")` on every attempt, the boundary returns the
structured result, and the unexpected fault is classified as `failed`
with `needs_human_review = true`. -/
theorem C3_engine_boundary_witness :
    executeE A0 cfg0 none alwaysFail none = .ok (execute A0 cfg0 none alwaysFail none) ∧
    (execute A0 cfg0 none alwaysFail none).status = .failed ∧
    (execute A0 cfg0 none alwaysFail none).needs_human_review = true := by
  refine ⟨(C3_engine_boundary A0 cfg0 none alwaysFail none).1, ?_⟩
  exact (C3_engine_boundary A0 cfg0 none alwaysFail none).2 "boom" rfl

/-- C5: on a successful execution the review gate compares
`confidence < threshold` strictly: the result's `needs_human_review` is
exactly that comparison, the reason string records the comparison when
review is needed, and confidence exactly equal to the threshold passes
without review (boundary inclusive on the pass side). -/
theorem C5_confidence_gate {O : Type} (A : AgentCfg) (cfg : PlatformCfg)
    (tctx : Option TenantContext) (op : OpBehaviour O) (uid : Option String)
    (o : O) (c : ℚ) (m : Metrics)
    (h : executeBody A tctx op = .ok (o, c, m)) :
    (execute A cfg tctx op uid).status = .success ∧
    (execute A cfg tctx op uid).needs_human_review
      = decide (c < cfg.agent_confidence_threshold) ∧
    (c < cfg.agent_confidence_threshold →
      (execute A cfg tctx op uid).review_reason
        = some (lowConfidenceReason c cfg.agent_confidence_threshold)) ∧
    (c = cfg.agent_confidence_threshold →
      (execute A cfg tctx op uid).needs_human_review = false) := by
  unfold execute
  rw [h]
  refine ⟨rfl, rfl, ?_, ?_⟩
  · intro hlt
    simp only [successResult]
    rw [if_pos hlt]
  · intro he
    simp only [successResult]
    subst he
    simp

/-- Witness for C5, at the boundary: an operation succeeding with
confidence exactly `0.85` against threshold `0.85` is not flagged for
review. -/
theorem C5_confidence_gate_witness :
    (execute A0 cfg0 none (fun _ => ⟨1, .ok 7 (85 / 100) ⟨0, 0, 0⟩⟩) none).status
      = .success ∧
    (execute A0 cfg0 none (fun _ => ⟨1, .ok 7 (85 / 100) ⟨0, 0, 0⟩⟩) none).needs_human_review
      = false := by
  have h := C5_confidence_gate A0 cfg0 none
    (fun _ => ⟨1, .ok 7 (85 / 100) ⟨0, 0, 0⟩⟩) none 7 (85 / 100) ⟨0, 0, 0⟩ rfl
  exact ⟨h.1, h.2.2.2 rfl⟩

/-- C8: the audit write and the usage-counter increment are best-effort —
forcing either (or both) to fail leaves the `AgentResult` returned by the
engine identical to the one returned when both succeed, and no exception
escapes the engine boundary (the side-effect failures are swallowed by
their own `try/except` blocks; the exception-transparent model still
returns `Except.ok`). -/
theorem C8_audit_failure_invisible {O : Type} (A : AgentCfg) (cfg : PlatformCfg)
    (tctx : Option TenantContext) (op : OpBehaviour O) (uid : Option String)
    (meta : RunMeta) (dumpOutput : O → List (String × String))
    (auditFails incrFails : Bool) :
    (executeFull A cfg tctx op uid meta dumpOutput auditFails incrFails).1
      = (executeFull A cfg tctx op uid meta dumpOutput false false).1 ∧
    executeFullE A cfg tctx op uid meta dumpOutput auditFails incrFails
      = .ok (executeFull A cfg tctx op uid meta dumpOutput auditFails incrFails) := by
  constructor
  · rfl
  · unfold executeFullE executeFull
    rw [executeE_ok]

/-- C10: with no Tenant Context installed, execution proceeds: the
result's `tenant_id` is `none`, the audit write and the usage-counter
increment are both skipped (the guards `if ... and tenant_context` /
`if tenant_context` are false), the feature gate is skipped, and an
operation succeeding on its first attempt still yields
`status = success`. -/
theorem C10_no_tenant_context {O : Type} (A : AgentCfg) (cfg : PlatformCfg)
    (op : OpBehaviour O) (uid : Option String) (meta : RunMeta)
    (dumpOutput : O → List (String × String)) (auditFails incrFails : Bool) :
    (executeFull A cfg none op uid meta dumpOutput auditFails incrFails).1.tenant_id
      = none ∧
    (executeFull A cfg none op uid meta dumpOutput auditFails incrFails).2.auditWrites
      = [] ∧
    (executeFull A cfg none op uid meta dumpOutput auditFails incrFails).2.usageIncremented
      = false ∧
    (∀ (d : ℚ) (o : O) (c : ℚ) (m : Metrics), op 0 = ⟨d, .ok o c m⟩ →
      (executeFull A cfg none op uid meta dumpOutput auditFails incrFails).1.status
        = .success) := by
  refine ⟨?_, ?_, ?_, ?_⟩
  · unfold executeFull execute
    cases hb : executeBody A none op with
    | ok v => rfl
    | error e => cases e <;> rfl
  · simp [executeFull, executeTail]
  · simp [executeFull, executeTail]
  · intro d o c m h
    unfold executeFull execute executeBody tenacityRun
    rw [h]
    rfl

/-- Witness for C10: a context-free execution of an operation that
succeeds immediately. -/
theorem C10_no_tenant_context_witness :
    (executeFull A0 cfg0 none (fun _ => ⟨1, .ok 7 (9 / 10) ⟨0, 0, 0⟩⟩) none
        ⟨"exec-1", [], [], 0⟩ (fun _ => []) false false).1.tenant_id = none ∧
    (executeFull A0 cfg0 none (fun _ => ⟨1, .ok 7 (9 / 10) ⟨0, 0, 0⟩⟩) none
        ⟨"exec-1", [], [], 0⟩ (fun _ => []) false false).2.auditWrites = [] ∧
    (executeFull A0 cfg0 none (fun _ => ⟨1, .ok 7 (9 / 10) ⟨0, 0, 0⟩⟩) none
        ⟨"exec-1", [], [], 0⟩ (fun _ => []) false false).2.usageIncremented = false ∧
    (executeFull A0 cfg0 none (fun _ => ⟨1, .ok 7 (9 / 10) ⟨0, 0, 0⟩⟩) none
        ⟨"exec-1", [], [], 0⟩ (fun _ => []) false false).1.status = .success := by
  have h := C10_no_tenant_context A0 cfg0
    (fun _ => ⟨1, .ok 7 (9 / 10) ⟨0, 0, 0⟩⟩) none ⟨"exec-1", [], [], 0⟩
    (fun _ => []) false false
  exact ⟨h.1, h.2.1, h.2.2.1, h.2.2.2 1 7 (9 / 10) ⟨0, 0, 0⟩ rfl⟩

/-! ## Middleware fixtures -/

/-- An active tenant reachable by id `acme`, subdomain `acme` and custom
domain `custom.example.com`. -/
def tAcme : Tenant :=
  ⟨"acme", "talkdoc_acme", .active, none, ⟨[("insurance_verification", true)]⟩⟩

/-- A suspended tenant with a stored status reason. -/
def tSusp : Tenant :=
  ⟨"susp", "talkdoc_susp", .suspended, some "nonpayment", ⟨[]⟩⟩

/-- A concrete Tenant Directory for the witnesses. -/
def dir0 : TenantDirectory :=
  { byId := fun s =>
      if s = "acme" then some tAcme else if s = "susp" then some tSusp else none
    bySubdomain := fun s => if s = "acme" then some tAcme else none
    byDomain := fun s => if s = "custom.example.com" then some tAcme else none }

/-! ## Middleware theorems -/

/-- C4: for every request that goes through tenant routing (i.e. is not
a platform endpoint, so the middleware's `try/finally` runs), the
tenant-context propagation slot is empty after dispatch — whatever the
initial slot, the resolution outcome, and the handler's behaviour
(normal return, `HTTPException`, or any other raised fault). -/
theorem C4_slot_cleared_on_all_paths {Resp : Type} (dir : TenantDirectory)
    (req : Request)
    (handler : Option TenantContext → HandlerOutcome Resp × List AgentAuditLog)
    (slot0 : Option TenantContext)
    (h : isPlatformEndpoint req.path = false) :
    (dispatch dir req handler slot0).slotAfter = none := by
  unfold dispatch
  rw [if_neg (by simp [h])]
  cases identifyTenant dir req with
  | none => rfl
  | some t =>
    dsimp only
    by_cases hs : t.status = TenantStatus.active
    · rw [if_neg (by simp [hs])]
    · rw [if_pos hs]

/-- Witness for C4: a tenant request whose handler raises an unhandled
fault, entering with a stale context in the slot, still ends with the
slot empty. -/
theorem C4_slot_cleared_on_all_paths_witness :
    (@dispatch Unit dir0 ⟨"/api/v1/verify", none, some "acme.talkdoc.com"⟩
        (fun _ => (.raiseOther "boom", [])) (some { tenant := tSusp })).slotAfter
      = none :=
  C4_slot_cleared_on_all_paths dir0 ⟨"/api/v1/verify", none, some "acme.talkdoc.com"⟩
    (fun _ => (.raiseOther "boom", [])) (some { tenant := tSusp }) (by decide)

/-- C7: when resolution finds a tenant, status gates the request before
the handler: any non-`active` status (provisioning, migrating,
suspended, deactivated) is rejected with a 503 whose detail says
"temporarily unavailable" and surfaces the stored status reason (or the
default text when none is stored), the downstream handler never runs —
so the Execution Engine is never invoked — and no audit entry is
produced; an `active` tenant proceeds to the handler. -/
theorem C7_status_gating {Resp : Type} (dir : TenantDirectory) (req : Request)
    (handler : Option TenantContext → HandlerOutcome Resp × List AgentAuditLog)
    (slot0 : Option TenantContext) (t : Tenant)
    (hplat : isPlatformEndpoint req.path = false)
    (hid : identifyTenant dir req = some t) :
    (t.status ≠ TenantStatus.active →
      (dispatch dir req handler slot0).handlerRan = false ∧
      (dispatch dir req handler slot0).auditWrites = [] ∧
      (dispatch dir req handler slot0).response = .error (.http 503
        ("Service temporarily unavailable: " ++ pyOr t.status_reason "Tenant is not active"))) ∧
    (t.status = TenantStatus.active →
      (dispatch dir req handler slot0).handlerRan = true) := by
  unfold dispatch
  rw [if_neg (by simp [hplat]), hid]
  dsimp only
  constructor
  · intro hs
    rw [if_pos hs]
    exact ⟨rfl, rfl, rfl⟩
  · intro hs
    rw [if_neg (by simp [hs])]

/-- Witness for C7: a request resolving to the suspended tenant is
rejected with the stored reason surfaced, without running the handler or
writing audit entries; the same request against the active tenant runs
the handler. -/
theorem C7_status_gating_witness :
    ((@dispatch Unit dir0 ⟨"/api/v1/verify", some "susp", none⟩
        (fun _ => (.ok (), [])) none).handlerRan = false ∧
      (@dispatch Unit dir0 ⟨"/api/v1/verify", some "susp", none⟩
        (fun _ => (.ok (), [])) none).auditWrites = [] ∧
      (@dispatch Unit dir0 ⟨"/api/v1/verify", some "susp", none⟩
        (fun _ => (.ok (), [])) none).response = .error (.http 503
          "Service temporarily unavailable: nonpayment")) ∧
    (@dispatch Unit dir0 ⟨"/api/v1/verify", some "acme", none⟩
        (fun _ => (.ok (), [])) none).handlerRan = true := by
  constructor
  · exact (C7_status_gating dir0 ⟨"/api/v1/verify", some "susp", none⟩
      (fun _ => (.ok (), [])) none tSusp (by decide) rfl).1 (by decide)
  · exact (C7_status_gating dir0 ⟨"/api/v1/verify", some "acme", none⟩
      (fun _ => (.ok (), [])) none tAcme (by decide) rfl).2 rfl

/-- The header strategy produces no tenant: the header is absent, empty,
or its id lookup misses. -/
def headerMiss (dir : TenantDirectory) (req : Request) : Prop :=
  ∀ s, req.xTenantID = some s → s = "" ∨ dir.byId s = none

lemma headerLookup_none (dir : TenantDirectory) (req : Request)
    (hmiss : headerMiss dir req) : headerLookup dir req = none := by
  unfold headerLookup
  cases hx : req.xTenantID with
  | none => rfl
  | some s =>
    dsimp only
    rcases hmiss s hx with he | hn
    · rw [if_neg (by simp [he])]
    · by_cases he2 : s = ""
      · rw [if_neg (by simp [he2])]
      · rw [if_pos he2, hn]

lemma takeWhile_subChar_of_dot : ∀ (l : List Char),
    (l.drop (l.takeWhile isSubChar).length).head? = some '.' →
    l.takeWhile isSubChar = l.takeWhile (fun c => c ≠ '.') := by
  intro l
  induction l with
  | nil => intro h; simp at h
  | cons c l ih =>
    intro h
    by_cases hc : isSubChar c = true
    · have hcd : c ≠ '.' := by
        intro he
        rw [he] at hc
        exact absurd hc (by decide)
      rw [List.takeWhile_cons_of_pos hc] at h ⊢
      rw [List.takeWhile_cons_of_pos (by simp [hcd])]
      simp only [List.length_cons, List.drop_succ_cons] at h
      rw [ih h]
    · rw [List.takeWhile_cons_of_neg hc] at h
      simp only [List.length_nil, List.drop_zero, List.head?_cons,
        Option.some.injEq] at h
      rw [List.takeWhile_cons_of_neg hc,
        List.takeWhile_cons_of_neg (by simp [h])]

/-- C6: resolution order and short-circuit of
`TenantRoutingMiddleware._identify_tenant`.
(1) A non-empty `X-Tenant-ID` header whose id lookup hits wins outright.
(2) When the header strategy misses, a subdomain extracted from the
port-stripped host whose lookup hits wins.
(3) When both miss, resolution is exactly the custom-domain lookup of
the full port-stripped host, and (4) when that also misses the result is
`none` — never a default tenant.
(5) A subdomain, when extracted, is the host's first label (the
characters before the first dot), is none of the reserved words `www`,
`api`, `admin`, and the host is neither `localhost`, `127.0.0.1`, nor a
bare numeric IP. -/
theorem C6_resolution_order (dir : TenantDirectory) (req : Request) :
    (∀ s t, req.xTenantID = some s → s ≠ "" → dir.byId s = some t →
      identifyTenant dir req = some t) ∧
    (∀ sub t, headerMiss dir req →
      extractSubdomain (stripPort (req.host.getD "")) = some sub →
      dir.bySubdomain sub = some t →
      identifyTenant dir req = some t) ∧
    (headerMiss dir req → stripPort (req.host.getD "") ≠ "" →
      (∀ sub, extractSubdomain (stripPort (req.host.getD "")) = some sub →
        dir.bySubdomain sub = none) →
      identifyTenant dir req = dir.byDomain (stripPort (req.host.getD ""))) ∧
    (headerMiss dir req →
      (∀ sub, extractSubdomain (stripPort (req.host.getD "")) = some sub →
        dir.bySubdomain sub = none) →
      dir.byDomain (stripPort (req.host.getD "")) = none →
      identifyTenant dir req = none) ∧
    (∀ (host : String) (sub : String), extractSubdomain host = some sub →
      sub = String.mk (host.toList.takeWhile (fun c => c ≠ '.')) ∧
      sub ≠ "www" ∧ sub ≠ "api" ∧ sub ≠ "admin" ∧
      host ≠ "localhost" ∧ host ≠ "127.0.0.1" ∧ isNumericHost host = false) := by
  refine ⟨?_, ?_, ?_, ?_, ?_⟩
  · intro s t hx hs hbyid
    unfold identifyTenant headerLookup
    rw [hx]
    dsimp only
    rw [if_pos hs, hbyid]
  · intro sub t hmiss hext hsub
    unfold identifyTenant
    rw [headerLookup_none dir req hmiss]
    dsimp only
    have hne : stripPort (req.host.getD "") ≠ "" := by
      intro h0
      rw [h0] at hext
      have h00 : extractSubdomain "" = none := rfl
      rw [h00] at hext
      exact Option.noConfusion hext
    rw [if_neg hne, hext]
    dsimp only
    rw [hsub]
  · intro hmiss hne hsubmiss
    unfold identifyTenant
    rw [headerLookup_none dir req hmiss]
    dsimp only
    rw [if_neg hne]
    cases hext : extractSubdomain (stripPort (req.host.getD "")) with
    | none => rfl
    | some sub =>
      dsimp only
      rw [hsubmiss sub hext]
  · intro hmiss hsubmiss hdom
    unfold identifyTenant
    rw [headerLookup_none dir req hmiss]
    dsimp only
    by_cases hne : stripPort (req.host.getD "") = ""
    · rw [if_pos hne]
    · rw [if_neg hne]
      cases hext : extractSubdomain (stripPort (req.host.getD "")) with
      | none => exact hdom
      | some sub =>
        dsimp only
        rw [hsubmiss sub hext]
        exact hdom
  · intro host sub hext
    unfold extractSubdomain at hext
    by_cases h1 : host = "localhost" ∨ host = "127.0.0.1" ∨ isNumericHost host = true
    · rw [if_pos h1] at hext
      exact absurd hext (by simp)
    · rw [if_neg h1] at hext
      push_neg at h1
      obtain ⟨hl, hip, hnum⟩ := h1
      by_cases h2 : host.toList.takeWhile isSubChar ≠ [] ∧
          (host.toList.drop (host.toList.takeWhile isSubChar).length).head? = some '.'
      · rw [if_pos h2] at hext
        by_cases h3 : String.mk (host.toList.takeWhile isSubChar) = "www" ∨
            String.mk (host.toList.takeWhile isSubChar) = "api" ∨
            String.mk (host.toList.takeWhile isSubChar) = "admin"
        · rw [if_pos h3] at hext
          exact absurd hext (by simp)
        · rw [if_neg h3] at hext
          push_neg at h3
          obtain ⟨hw, ha, hd⟩ := h3
          have hsub : sub = String.mk (host.toList.takeWhile isSubChar) :=
            (Option.some.injEq _ _ ▸ hext).symm
          subst hsub
          refine ⟨?_, hw, ha, hd, hl, hip, by simpa using hnum⟩
          rw [takeWhile_subChar_of_dot host.toList h2.2]
      · rw [if_neg h2] at hext
        exact absurd hext (by simp)

/-- Witness for C6: on a concrete directory, a non-empty header hit
resolves by id; with no header, `acme.talkdoc.com:8080` resolves by
subdomain; `custom.example.com` (no matching subdomain) resolves by
custom domain; `unknown.example.com` resolves to not-found; and the
extracted subdomain of `acme.talkdoc.com` is its first label `acme`. -/
theorem C6_resolution_order_witness :
    identifyTenant dir0 ⟨"/x", some "susp", some "acme.talkdoc.com"⟩ = some tSusp ∧
    identifyTenant dir0 ⟨"/x", none, some "acme.talkdoc.com:8080"⟩ = some tAcme ∧
    identifyTenant dir0 ⟨"/x", none, some "custom.example.com"⟩ = some tAcme ∧
    identifyTenant dir0 ⟨"/x", none, some "unknown.example.com"⟩ = none ∧
    (extractSubdomain "acme.talkdoc.com" = some "acme" ∧
      "acme" = String.mk ("acme.talkdoc.com".toList.takeWhile (fun c => c ≠ '.'))) := by
  refine ⟨?_, ?_, ?_, ?_, ?_, ?_⟩
  · exact (C6_resolution_order dir0 ⟨"/x", some "susp", some "acme.talkdoc.com"⟩).1
      "susp" tSusp rfl (by decide) rfl
  · exact (C6_resolution_order dir0 ⟨"/x", none, some "acme.talkdoc.com:8080"⟩).2.1
      "acme" tAcme (by intro s hs; cases hs) (by decide) rfl
  · have h := (C6_resolution_order dir0 ⟨"/x", none, some "custom.example.com"⟩).2.2.1
      (by intro s hs; cases hs) (by decide)
      (by
        intro sub hsub
        have : sub = "custom" := by
          have := (C6_resolution_order dir0 ⟨"/x", none, some "custom.example.com"⟩).2.2.2.2
            "custom.example.com" sub hsub
          simpa using this.1
        rw [this]
        rfl)
    simpa using h
  · exact (C6_resolution_order dir0 ⟨"/x", none, some "unknown.example.com"⟩).2.2.2.1
      (by intro s hs; cases hs)
      (by
        intro sub hsub
        have h5 := (C6_resolution_order dir0 ⟨"/x", none, some "unknown.example.com"⟩).2.2.2.2
          "unknown.example.com" sub hsub
        have : sub = "unknown" := by simpa using h5.1
        rw [this]
        rfl)
      rfl
  · decide
  · exact ((C6_resolution_order dir0 ⟨"/x", none, some "acme.talkdoc.com"⟩).2.2.2.2
      "acme.talkdoc.com" "acme" (by decide)).1

/-! ## Audit review claims -/

/-- A concrete audit entry flagged for human review. -/
def e0 : AgentAuditLog :=
  { log_id := "log-1"
    tenant_id := "acme"
    agent_type := "insurance_verification"
    agent_version := "1.0.0"
    status := "success"
    input_data := []
    output_data := []
    confidence := 9 / 10
    execution_time_ms := 100
    error := none
    error_details := []
    retry_count := 0
    api_calls_made := 1
    tokens_used := 10
    cost_usd := 0
    needs_human_review := true
    review_reason := some "Low confidence"
    reviewed_by := none
    reviewed_at := none
    review_notes := none
    user_id := some "u1"
    executed_at := 0
    context := []
    phi_accessed := false
    phi_modified := false
    compliance_tags := [] }

/-- C9 counterexample: `mark_reviewed` does **not** leave
`needs_human_review` unchanged — on an entry flagged for review it
forces the flag to `false` (the `$set` document includes
`"needs_human_review": False`), so the claim that only the three review
sub-record fields are mutated fails at this input. -/
theorem C9_mark_reviewed_counterexample :
    e0.needs_human_review = true ∧
    ((markReviewed [e0] "log-1" "alice" (some "ok") 5).1.head?.map
      AgentAuditLog.needs_human_review) = some false ∧
    (markReviewed [e0] "log-1" "alice" (some "ok") 5).2 = true := by
  have hstep : markReviewed [e0] "log-1" "alice" (some "ok") 5 =
      ([applyReviewSet e0 "alice" (some "ok") 5],
        decide (applyReviewSet e0 "alice" (some "ok") 5 ≠ e0)) := by
    unfold markReviewed
    rw [if_pos (show e0.log_id = "log-1" from rfl)]
  refine ⟨rfl, ?_, ?_⟩
  · rw [hstep]
    rfl
  · rw [hstep]
    simp only [decide_eq_true_eq, ne_eq]
    intro he
    have h2 := congrArg AgentAuditLog.needs_human_review he
    simp [applyReviewSet, e0] at h2

/-- C9 (amended): `mark_reviewed(log_id, reviewer, notes)` updates the
first entry whose `log_id` matches by setting `reviewed_by`,
`reviewed_at`, `review_notes` **and forcing `needs_human_review` to
false**, leaves every other field of that entry and every other entry
unchanged, and returns true exactly when such an entry exists and the
update changed it.  Part (1): no match leaves the store unchanged and
returns false.  Part (2): the first match receives exactly the `$set`
patch.  Part (3): the patch writes the three review fields plus the
review flag and agrees with the old entry on every other field. -/
theorem C9_mark_reviewed_amended (lid reviewer : String)
    (notes : Option String) (now : Nat) :
    (∀ store : List AgentAuditLog, (∀ x ∈ store, x.log_id ≠ lid) →
      markReviewed store lid reviewer notes now = (store, false)) ∧
    (∀ (pre : List AgentAuditLog) (d : AgentAuditLog) (post : List AgentAuditLog),
      (∀ x ∈ pre, x.log_id ≠ lid) → d.log_id = lid →
      markReviewed (pre ++ d :: post) lid reviewer notes now =
        (pre ++ applyReviewSet d reviewer notes now :: post,
          decide (applyReviewSet d reviewer notes now ≠ d))) ∧
    (∀ d : AgentAuditLog,
      (applyReviewSet d reviewer notes now).reviewed_by = some reviewer ∧
      (applyReviewSet d reviewer notes now).reviewed_at = some now ∧
      (applyReviewSet d reviewer notes now).review_notes = notes ∧
      (applyReviewSet d reviewer notes now).needs_human_review = false ∧
      (applyReviewSet d reviewer notes now).log_id = d.log_id ∧
      (applyReviewSet d reviewer notes now).tenant_id = d.tenant_id ∧
      (applyReviewSet d reviewer notes now).agent_type = d.agent_type ∧
      (applyReviewSet d reviewer notes now).agent_version = d.agent_version ∧
      (applyReviewSet d reviewer notes now).status = d.status ∧
      (applyReviewSet d reviewer notes now).input_data = d.input_data ∧
      (applyReviewSet d reviewer notes now).output_data = d.output_data ∧
      (applyReviewSet d reviewer notes now).confidence = d.confidence ∧
      (applyReviewSet d reviewer notes now).execution_time_ms = d.execution_time_ms ∧
      (applyReviewSet d reviewer notes now).error = d.error ∧
      (applyReviewSet d reviewer notes now).error_details = d.error_details ∧
      (applyReviewSet d reviewer notes now).retry_count = d.retry_count ∧
      (applyReviewSet d reviewer notes now).api_calls_made = d.api_calls_made ∧
      (applyReviewSet d reviewer notes now).tokens_used = d.tokens_used ∧
      (applyReviewSet d reviewer notes now).cost_usd = d.cost_usd ∧
      (applyReviewSet d reviewer notes now).review_reason = d.review_reason ∧
      (applyReviewSet d reviewer notes now).user_id = d.user_id ∧
      (applyReviewSet d reviewer notes now).executed_at = d.executed_at ∧
      (applyReviewSet d reviewer notes now).context = d.context ∧
      (applyReviewSet d reviewer notes now).phi_accessed = d.phi_accessed ∧
      (applyReviewSet d reviewer notes now).phi_modified = d.phi_modified ∧
      (applyReviewSet d reviewer notes now).compliance_tags = d.compliance_tags) := by
  refine ⟨?_, ?_, ?_⟩
  · intro store
    induction store with
    | nil => intro h; rfl
    | cons d rest ih =>
      intro h
      unfold markReviewed
      rw [if_neg (h d (List.mem_cons_self d rest))]
      rw [ih (fun x hx => h x (List.mem_cons_of_mem d hx))]
  · intro pre d post
    induction pre with
    | nil =>
      intro hpre hd
      simp only [List.nil_append]
      unfold markReviewed
      rw [if_pos hd]
    | cons p pre ih =>
      intro hpre hd
      simp only [List.cons_append]
      unfold markReviewed
      rw [if_neg (hpre p (List.mem_cons_self p pre))]
      rw [ih (fun x hx => hpre x (List.mem_cons_of_mem p hx)) hd]
  · intro d
    exact ⟨rfl, rfl, rfl, rfl, rfl, rfl, rfl, rfl, rfl, rfl, rfl, rfl, rfl,
      rfl, rfl, rfl, rfl, rfl, rfl, rfl, rfl, rfl, rfl, rfl, rfl, rfl⟩

/-- Witness for the amended C9: on the singleton store the matching
entry receives exactly the `$set` patch (same confidence, review flag
cleared), and a miss leaves the store unchanged with a `false` return. -/
theorem C9_mark_reviewed_amended_witness :
    markReviewed [e0] "log-1" "alice" (some "ok") 5 =
      ([applyReviewSet e0 "alice" (some "ok") 5],
        decide (applyReviewSet e0 "alice" (some "ok") 5 ≠ e0)) ∧
    markReviewed [e0] "log-9" "alice" (some "ok") 5 = ([e0], false) ∧
    (applyReviewSet e0 "alice" (some "ok") 5).confidence = e0.confidence ∧
    (applyReviewSet e0 "alice" (some "ok") 5).needs_human_review = false := by
  refine ⟨?_, ?_, ?_, ?_⟩
  · exact (C9_mark_reviewed_amended "log-1" "alice" (some "ok") 5).2.1
      [] e0 [] (by simp) rfl
  · exact (C9_mark_reviewed_amended "log-9" "alice" (some "ok") 5).1 [e0]
      (by
        intro x hx
        rw [List.mem_singleton] at hx
        subst hx
        decide)
  · exact ((C9_mark_reviewed_amended "log-1" "alice" (some "ok") 5).2.2 e0).2.2.2.2.2.2.2.2.2.2.2.1
  · exact ((C9_mark_reviewed_amended "log-1" "alice" (some "ok") 5).2.2 e0).2.2.2.1

end TalkDoc
